import Mathlib

set_option maxRecDepth 8000

/-! Shallow embedding of the AlazarTech ATS digitizer driver
(`qcodes/instrument_drivers/AlazarTech/ATS.py`): the `AlazarParameter`
configuration-field class, the `_result_handler` status-code classifier,
the `config` device-call sequence, the `acquire` engine, and the
`Buffer` pinned-memory allocator. -/

/-- Association-list lookup with first-match semantics.  It embeds a
Python `dict` lookup (`d[k]`, `k in d`): the lists we build have unique
keys, so first-match agrees with the dict. -/
def alookup {α β : Type} [DecidableEq α] (k : α) : List (α × β) → Option β
  | [] => none
  | (a, b) :: t => if a = k then some b else alookup k t

/-- Exceptions raised by the embedded code.  Each constructor records the
data from which the corresponding Python exception message is built:
`valueKeyError v p` embeds the `KeyError` of `AlazarParameter._set`
(`Value "v" unknown setting in parameter "p"`); `staleError p` embeds the
`Exception` of `AlazarParameter.get` raised when `_uptodate_flag` is
`False`; `dictKeyError` a plain dictionary-lookup `KeyError`;
`unsupportedMode` the `Exception` of `acquire` line 193 (only TS and NPT
modes implemented); `bitsPerSampleError` the `Exception` of `acquire`
line 206; `deviceCallError s c m` the `Exception` of `_result_handler`
line 336 (`s raised c: m`); `unknownDeviceError s c` the `KeyError` of
`_result_handler` line 335 (`s raised unknown error c`); `typeError` a
Python `TypeError` from applying an operator to unsupported operands;
`nameError n` a Python `NameError` for the undefined name `n`;
`attributeError n` a Python `AttributeError` for the never-assigned
attribute `n`; `bufferBitsError` and `bufferPlatformError` the two
`Exception`s of `Buffer.__init__` lines 393 and 395; `memoryAllocError e`
the allocation-failure `Exception` of `Buffer.__init__` line 411. -/
inductive PyErr where
  | valueKeyError (value : String) (param : String)
  | staleError (param : String)
  | dictKeyError (key : String)
  | unsupportedMode
  | bitsPerSampleError
  | deviceCallError (source : String) (code : Nat) (message : String)
  | unknownDeviceError (source : String) (code : Nat)
  | typeError (detail : String)
  | nameError (name : String)
  | attributeError (name : String)
  | bufferBitsError
  | bufferPlatformError
  | memoryAllocError (oserr : Nat)
  deriving DecidableEq, Repr

/-- State of one `AlazarParameter` (ATS.py lines 339-387): `byte` is
`self._byte` (device code, `None` until first `_set`), `uptodate` is
`self._uptodate_flag`, `b2v` is `self._byte_to_value_dict` and `v2b`
`self._value_to_byte_dict`, both as association lists; `name` is
`self.name`. -/
structure PState where
  name : String
  byte : Option Nat
  uptodate : Bool
  v2b : List (String × Nat)
  b2v : List (Nat × String)
  deriving DecidableEq, Repr

/-- Embeds line 348, `self._value_to_byte_dict = {v: k for k, v in
self._byte_to_value_dict}`: the dict comprehension inverts the pairs the
iteration yields, later bindings overwriting earlier ones; reversing the
list makes the first-match `alookup` find the last binding. -/
def mkValueToByte (l : List (Nat × String)) : List (String × Nat) :=
  (l.map (fun p => (p.2, p.1))).reverse

/-- `AlazarParameter._set` (lines 371-384): reject a value absent from
`_value_to_byte_dict` with a `KeyError` naming the value and the
parameter, otherwise store its device code and clear `_uptodate_flag`. -/
def paramSet (v : String) (p : PState) : Except PyErr PState :=
  match alookup v p.v2b with
  | none => .error (.valueKeyError v p.name)
  | some b => .ok { p with byte := some b, uptodate := false }

/-- In-place effect of `_set` on the parameter: the `KeyError` is raised
before any assignment, so on error the state is unchanged. -/
def paramSetRun (v : String) (p : PState) : PState :=
  match paramSet v p with
  | .ok q => q
  | .error _ => p

/-- `AlazarParameter.get` (lines 352-362): raise while `_uptodate_flag`
is `False`, otherwise look the stored byte up in `_byte_to_value_dict`. -/
def paramGet (p : PState) : Except PyErr String :=
  if p.uptodate = false then .error (.staleError p.name)
  else
    match p.byte with
    | none => .error (.dictKeyError "None")
    | some b =>
      match alookup b p.b2v with
      | none => .error (.dictKeyError (toString b))
      | some v => .ok v

/-- `AlazarParameter._get_byte` (lines 364-369): return `self._byte`
unconditionally, with no staleness or ever-set check. -/
def paramGetByte (p : PState) : Option Nat := p.byte

/-- `AlazarParameter._set_updated` (lines 386-387). -/
def setUpdatedP (p : PState) : PState := { p with uptodate := true }

/-- `self._succes`, the success sentinel set in `__init__` (line 31). -/
def succesCode : Nat := 512

/-- The `error_codes` table of `_result_handler` (lines 289-327),
verbatim. -/
def errorCodes : List (Nat × String) :=
  [(513, "ApiFailed"), (514, "ApiAccessDenied"), (515, "ApiDmaChannelUnavailable"),
   (516, "ApiDmaChannelInvalid"), (517, "ApiDmaChannelTypeError"), (518, "ApiDmaInProgress"),
   (519, "ApiDmaDone"), (520, "ApiDmaPaused"), (521, "ApiDmaNotPaused"),
   (522, "ApiDmaCommandInvalid"), (523, "ApiDmaManReady"), (524, "ApiDmaManNotReady"),
   (525, "ApiDmaInvalidChannelPriority"), (526, "ApiDmaManCorrupted"),
   (527, "ApiDmaInvalidElementIndex"), (528, "ApiDmaNoMoreElements"),
   (529, "ApiDmaSglInvalid"),
   (530, "ApiDmaSglQueueFull"), (531, "ApiNullParam"), (532, "ApiInvalidBusIndex"),
   (533, "ApiUnsupportedFunction"), (534, "ApiInvalidPciSpace"), (535, "ApiInvalidIopSpace"),
   (536, "ApiInvalidSize"), (537, "ApiInvalidAddress"), (538, "ApiInvalidAccessType"),
   (539, "ApiInvalidIndex"), (540, "ApiMuNotReady"), (541, "ApiMuFifoEmpty"),
   (542, "ApiMuFifoFull"),
   (543, "ApiInvalidRegister"), (544, "ApiDoorbellClearFailed"), (545, "ApiInvalidUserPin"),
   (546, "ApiInvalidUserState"), (547, "ApiEepromNotPresent"),
   (548, "ApiEepromTypeNotSupported"),
   (549, "ApiEepromBlank"), (550, "ApiConfigAccessFailed"), (551, "ApiInvalidDeviceInfo"),
   (552, "ApiNoActiveDriver"), (553, "ApiInsufficientResources"),
   (554, "ApiObjectAlreadyAllocated"),
   (555, "ApiAlreadyInitialized"), (556, "ApiNotInitialized"),
   (557, "ApiBadConfigRegEndianMode"), (558, "ApiInvalidPowerState"), (559, "ApiPowerDown"),
   (560, "ApiFlybyNotSupported"),
   (561, "ApiNotSupportThisChannel"), (562, "ApiNoAction"), (563, "ApiHSNotSupported"),
   (564, "ApiVPDNotSupported"), (565, "ApiVpdNotEnabled"), (566, "ApiNoMoreCap"),
   (567, "ApiInvalidOffset"),
   (568, "ApiBadPinDirection"), (569, "ApiPciTimeout"), (570, "ApiDmaChannelClosed"),
   (571, "ApiDmaChannelError"), (572, "ApiInvalidHandle"), (573, "ApiBufferNotReady"),
   (574, "ApiInvalidData"),
   (575, "ApiDoNothing"), (576, "ApiDmaSglBuildFailed"), (577, "ApiPMNotSupported"),
   (578, "ApiInvalidDriverVersion"),
   (579, "ApiWaitTimeout: operation did not finish during timeout interval. Check your trigger."),
   (580, "ApiWaitCanceled"), (581, "ApiBufferTooSmall"),
   (582, "ApiBufferOverflow:rate of acquiring data > rate of transferring data to local memory. Try reducing sample rate, reducing number of enabled channels, increasing size of each DMA buffer or increase number of DMA buffers."),
   (583, "ApiInvalidBuffer"), (584, "ApiInvalidRecordsPerBuffer"),
   (585, "ApiDmaPending:Async I/O operation was succesfully started, it will be completed when sufficient trigger events are supplied to fill the buffer."),
   (586, "ApiLockAndProbePagesFailed:Driver or operating system was unable to prepare the specified buffer for DMA transfer. Try reducing buffer size or total number of buffers."),
   (587, "ApiWaitAbandoned"), (588, "ApiWaitFailed"),
   (589, "ApiTransferComplete:This buffer is last in the current acquisition."),
   (590, "ApiPllNotLocked:hardware error, contact AlazarTech"),
   (591, "ApiNotSupportedInDualChannelMode:Requested number of samples per channel is too large to fit in on-board memory. Try reducing number of samples per channel, or switch to single channel mode.")]

/-- `AlazarTech_ATS._result_handler` (lines 287-336): the success
sentinel returns `None`; a code absent from `error_codes` raises a
`KeyError` naming the invoking operation and the raw code; any other
code raises an `Exception` built from the operation name, the code and
the mapped message. -/
def resultHandler (errorCode : Nat) (errorSource : String) : Except PyErr Unit :=
  if errorCode = succesCode then .ok ()
  else
    match alookup errorCode errorCodes with
    | none => .error (.unknownDeviceError errorSource errorCode)
    | some msg => .error (.deviceCallError errorSource errorCode msg)

/-- One driver (dll) call issued by the engine, with the argument values
the source passes after the device handle.  `getChannelInfo` takes two
output pointers; the other payloads are the integer arguments in source
order. -/
inductive DCall where
  | abortAsyncRead
  | getChannelInfo
  | setRecordSize (pre : Nat) (post : Nat)
  | beforeAsyncRead (chan transfer a3 a4 a5 flags : Nat)
  | postAsyncBuffer (addr : Nat) (sizeBytes : Nat)
  | startCapture
  | waitAsyncBufferComplete (addr : Nat) (timeout : Nat)
  deriving DecidableEq, Repr

/-- A DMA buffer as `acquire` uses it at lines 270-282: `buf.addr` and
`buf.size_bytes`. -/
structure Buf where
  addr : Nat
  size_bytes : Nat
  deriving DecidableEq, Repr

/-- Mutable state of an `AlazarTech_ATS` instrument: `self.parameters`
(a name-keyed mapping of `AlazarParameter`s, populated outside this
module and modelled as a total map) and `self.buflist`.  No statement in
the source ever assigns `buflist` (or `waittimeout`), so after
`__init__` it is `none` and reading it raises `AttributeError`; `some`
models a caller having assigned the attribute externally. -/
structure EngineState where
  params : String → PState
  buflist : Option (List Buf)

/-- Engine-monad state: the instrument state plus the trace of driver
calls issued so far. -/
def AqS : Type := EngineState × List DCall

/-- The engine monad: state passing with Python exception semantics —
an exception propagates but the mutations made so far stand. -/
def AqM (α : Type) : Type := AqS → (Except PyErr α) × AqS

instance : Monad AqM where
  pure a := fun s => (Except.ok a, s)
  bind m f := fun s =>
    match m s with
    | (Except.ok a, s1) => f a s1
    | (Except.error e, s1) => (Except.error e, s1)

/-- Raise a Python exception. -/
def throwPy {α : Type} (e : PyErr) : AqM α := fun s => (Except.error e, s)

/-- Read `self.parameters[k]`. -/
def getParamM (k : String) : AqM PState := fun s => (Except.ok (s.1.params k), s)

/-- Overwrite `self.parameters[k]` (in-place mutation of the parameter
object). -/
def putParamM (k : String) (p : PState) : AqM Unit := fun s =>
  (Except.ok (), ({ s.1 with params := fun k2 => if k2 = k then p else s.1.params k2 }, s.2))

/-- Read `self.buflist`. -/
def getBuflistM : AqM (Option (List Buf)) := fun s => (Except.ok s.1.buflist, s)

/-- `self.parameters[k]._set(v)` as used by `config` and `acquire`. -/
def pSet (k : String) (v : String) : AqM Unit := do
  let p ← getParamM k
  match paramSet v p with
  | .error e => throwPy e
  | .ok q => putParamM k q

/-- `self.parameters[k].get()`. -/
def pGet (k : String) : AqM String := do
  let p ← getParamM k
  match paramGet p with
  | .error e => throwPy e
  | .ok v => pure v

/-- `self.parameters[k]._get_byte()`. -/
def pGetByte (k : String) : AqM (Option Nat) := do
  let p ← getParamM k
  pure (paramGetByte p)

/-- `self.parameters[k]._set_updated()`. -/
def pSetUpdated (k : String) : AqM Unit := do
  let p ← getParamM k
  putParamM k (setUpdatedP p)

/-- Use an `AlazarParameter` byte as an integer, in arithmetic or as a
dll argument: the byte is `None` until the first `_set`, and Python
raises a `TypeError` when `None` meets an integer operator or an
integer-typed foreign argument. -/
def asNat (o : Option Nat) : AqM Nat :=
  match o with
  | none => throwPy (.typeError "NoneType does not support this operation")
  | some n => pure n

/-- The external dll, as the engine observes it: the return code of the
i-th driver call of the run, and the values `AlazarGetChannelInfo`
writes through its two output pointers (bits per sample, memory size in
samples). -/
structure DriverDll where
  ret : Nat → Nat
  bps : Nat
  maxS : Nat

/-- Issue one driver call: record it in the trace, take the dll's return
code for this call position, and feed it to `_result_handler` exactly as
every call site of `acquire` does. -/
def dllCall (d : DriverDll) (c : DCall) (src : String) : AqM Unit := fun s =>
  let code := d.ret s.2.length
  match resultHandler code src with
  | .ok _ => (Except.ok (), (s.1, s.2 ++ [c]))
  | .error e => (Except.error e, (s.1, s.2 ++ [c]))

/-- The keyword arguments of `AlazarTech_ATS.acquire` (lines 161-163),
each `None` when not supplied.  Values are opaque tokens; the device
codes they map to live in each parameter's `v2b` table. -/
structure AcqArgs where
  mode : Option String := none
  samples_per_record : Option String := none
  records_per_buffer : Option String := none
  buffers_per_acquisition : Option String := none
  channel_selection : Option String := none
  transfer_offset : Option String := none
  external_startcapture : Option String := none
  enable_record_headers : Option String := none
  alloc_buffers : Option String := none
  fifo_only_streaming : Option String := none
  interleave_samples : Option String := none
  get_processed_data : Option String := none

/-- `if arg is not None: self.parameters[key]._set(arg)`. -/
def setIfSome (k : String) (a : Option String) : AqM Unit :=
  match a with
  | none => pure ()
  | some v => pSet k v

/-- `AlazarTech_ATS.acquire` (lines 161-285), step by step.

Points where the embedding follows a defect of the source rather than
the spec's description:
* line 178 stores the `external_startcapture` argument under the
  misspelled key `external_starcapture` (read back at line 220 under the
  correct spelling, committed at line 263 under the misspelled one);
* lines 240 and 243 apply `%` and `/` to
  `self.parameters[buffers_per_acquisition]` — the parameter object
  itself, not its `_get_byte()` value.  The `Parameter` base class
  (`qcodes/instrument/parameter.py`, outside `src/`) is per the spec a
  plain named-value container with no numeric protocol, so both
  expressions raise `TypeError` and the rest of the TS branch
  (rounding warning, `records_per_buffer` override, the TS
  `AlazarBeforeAsyncRead` call) is unreachable;
* line 270 iterates `self.buflist`, an attribute no statement ever
  assigns, so when it was never assigned externally the loop header
  raises `AttributeError`;
* line 277 evaluates `BuffersCompleted < BuffersPerAcquisition`, two
  names defined nowhere, so reaching the while loop raises `NameError`
  before any iteration, no completion counter is ever incremented, and
  the final `AlazarAbortAsyncRead` of line 284 is unreachable (and there
  is no try/finally to issue it on failure). -/
def acquire (d : DriverDll) (a : AcqArgs) : AqM Unit := do
  setIfSome "mode" a.mode
  setIfSome "samples_per_record" a.samples_per_record
  setIfSome "records_per_buffer" a.records_per_buffer
  setIfSome "buffers_per_acquisition" a.buffers_per_acquisition
  setIfSome "channel_selection" a.channel_selection
  setIfSome "transfer_offset" a.transfer_offset
  setIfSome "external_starcapture" a.external_startcapture
  setIfSome "enable_record_headers" a.enable_record_headers
  setIfSome "alloc_buffers" a.alloc_buffers
  setIfSome "fifo_only_streaming" a.fifo_only_streaming
  setIfSome "interleave_samples" a.interleave_samples
  setIfSome "get_processed_data" a.get_processed_data
  let m1 ← pGet "mode"
  if ¬ (m1 = "TS" ∨ m1 = "NPT") then
    throwPy .unsupportedMode
  dllCall d .abortAsyncRead "AlazarAbortAsyncRead"
  dllCall d .getChannelInfo "AlazarGetChannelInfo"
  let bps := d.bps
  let _max_s := d.maxS
  if ¬ bps = 8 then
    throwPy .bitsPerSampleError
  let m2 ← pGet "mode"
  if m2 = "NPT" then
    let pretriggersize := 0
    let post_trigger_size ← asNat (← pGetByte "samples_per_record")
    dllCall d (.setRecordSize pretriggersize post_trigger_size) "AlazarSetRecordSize"
  let chanB ← pGetByte "channel_selection"
  let _number_of_channels : Nat := if chanB = some 3 then 2 else 1
  let fMode ← asNat (← pGetByte "mode")
  let fEsc ← asNat (← pGetByte "external_startcapture")
  let fErh ← asNat (← pGetByte "enable_record_headers")
  let fAb ← asNat (← pGetByte "alloc_buffers")
  let fFos ← asNat (← pGetByte "fifo_only_streaming")
  let fIs ← asNat (← pGetByte "interleave_samples")
  let fGpd ← asNat (← pGetByte "get_processed_data")
  let acquire_flags := fMode ||| fEsc ||| fErh ||| fAb ||| fFos ||| fIs ||| fGpd
  let m3 ← pGet "mode"
  if m3 = "NPT" then
    let samples_per_record ← asNat (← pGetByte "samples_per_record")
    let records_per_buffer ← asNat (← pGetByte "records_per_buffer")
    let records_per_acquisition := records_per_buffer * (← asNat (← pGetByte "buffers_per_acquisition"))
    let _samples_per_buffer := samples_per_record * records_per_buffer
    let chan ← asNat (← pGetByte "channel_selection")
    let toff ← asNat (← pGetByte "transfer_offset")
    dllCall d (.beforeAsyncRead chan toff samples_per_record records_per_buffer
      records_per_acquisition acquire_flags) "AlazarBeforeAsyncRead"
  else if m3 = "TS" then
    let _spr ← asNat (← pGetByte "samples_per_record")
    throwPy (.typeError "unsupported operand types for mod: int and AlazarParameter")
  pSetUpdated "samples_per_record"
  pSetUpdated "records_per_buffer"
  pSetUpdated "buffers_per_acquisition"
  pSetUpdated "channel_selection"
  pSetUpdated "transfer_offset"
  pSetUpdated "mode"
  pSetUpdated "external_starcapture"
  pSetUpdated "enable_record_headers"
  pSetUpdated "alloc_buffers"
  pSetUpdated "fifo_only_streaming"
  pSetUpdated "interleave_samples"
  pSetUpdated "get_processed_data"
  match ← getBuflistM with
  | none => throwPy (.attributeError "buflist")
  | some bl =>
    bl.forM (fun buf => dllCall d (.postAsyncBuffer buf.addr buf.size_bytes) "AlazarPostAsyncBuffer")
  dllCall d .startCapture "AlazarStartCapture"
  throwPy (.nameError "BuffersCompleted")
  dllCall d .abortAsyncRead "AlazarAbortAsyncRead"

/-- Result of an `acquire` call on an initial instrument state. -/
def acquireRes (d : DriverDll) (a : AcqArgs) (st : EngineState) : Except PyErr Unit :=
  (acquire d a (st, [])).1

/-- Trace of driver calls an `acquire` call issues on an initial
instrument state. -/
def acquireTrace (d : DriverDll) (a : AcqArgs) (st : EngineState) : List DCall :=
  (acquire d a (st, [])).2.2

/-- Parameter map after an `acquire` call. -/
def acquireParams (d : DriverDll) (a : AcqArgs) (st : EngineState) : String → PState :=
  (acquire d a (st, [])).2.1.params

/-- Record of one device call of `config`: the dll function name as the
source passes it to `_result_handler`, and the bytes of the
configuration fields it consumes, in argument order (for
`AlazarInputControl i` the source also passes the literal channel index
`i` before them; it is part of the recorded name). -/
structure CallRec where
  source : String
  argBytes : List (Option Nat)
  deriving DecidableEq, Repr

/-- The device-call sequence of `AlazarTech_ATS.config` (lines 93-157):
each call with the configuration fields whose bytes it consumes and
which are `_set_updated` immediately after it succeeds, in source order
(the `for i in [1, 2]` loop interleaves `AlazarInputControl i` and
`AlazarSetBWLimit i`). -/
def configSteps : List (String × List String) :=
  [("AlazarSetCaptureClock", ["clock_source", "sample_rate", "clock_edge", "decimation"]),
   ("AlazarInputControl 1", ["coupling1", "range1", "impedence1"]),
   ("AlazarSetBWLimit 1", ["bwlimit1"]),
   ("AlazarInputControl 2", ["coupling2", "range2", "impedence2"]),
   ("AlazarSetBWLimit 2", ["bwlimit2"]),
   ("AlazarSetTriggerOperation",
    ["trigger_operation", "trigger_engine1", "trigger_source1", "trigger_slope1",
     "trigger_level1", "trigger_engine2", "trigger_source2", "trigger_slope2",
     "trigger_level2"]),
   ("AlazarSetExternalTrigger", ["external_trigger_coupling", "trigger_range"]),
   ("AlazarSetTriggerDelay", ["trigger_delay"]),
   ("AlazarSetTriggerTimeOut", ["timeout_ticks"])]

/-- `_set_updated` on every field of a finished device call. -/
def commitFields (fs : List String) (P : String → PState) : String → PState :=
  fun k => if k ∈ fs then setUpdatedP (P k) else P k

/-- Run the device-call phase of `config`: for each step issue the call
(the dll's return code for the i-th call of the run is `oracle i`), feed
the code to `_result_handler`, and only on success `_set_updated` the
consumed fields and continue; an exception stops the sequence leaving
the parameter map as mutated so far. -/
def runCalls (oracle : Nat → Nat) :
    List (String × List String) → Nat → (String → PState) →
    (Option PyErr) × (String → PState) × List CallRec
  | [], _, P => (none, P, [])
  | (src, fs) :: rest, i, P =>
    let rec1 : CallRec := ⟨src, fs.map (fun f => (P f).byte)⟩
    match resultHandler (oracle i) src with
    | .error e => (some e, P, [rec1])
    | .ok _ =>
      let P2 := commitFields fs P
      let out := runCalls oracle rest (i + 1) P2
      (out.1, out.2.1, rec1 :: out.2.2)

/-- The device-call phase of `AlazarTech_ATS.config` (lines 93-157). -/
def configCalls (oracle : Nat → Nat) (P : String → PState) :
    (Option PyErr) × (String → PState) × List CallRec :=
  runCalls oracle configSteps 0 P

/-- Fields committed by a run: the fields of the longest prefix of steps
whose device calls all returned the success sentinel. -/
def committedFields (oracle : Nat → Nat) :
    List (String × List String) → Nat → List String
  | [], _ => []
  | (_, fs) :: rest, i =>
    if oracle i = succesCode then fs ++ committedFields oracle rest (i + 1) else []

/-- State of a `Buffer` object (ATS.py lines 390-415) after a completed
`__init__`. -/
structure BufState where
  addr : Nat
  size_bytes : Nat
  allocated : Bool
  deriving DecidableEq, Repr

/-- `Buffer.__init__` (lines 391-415): reject a sample width other than
8 bits, then a platform other than Windows (`os.name != 'nt'`), before
any allocation is attempted; then request `samples_per_buffer *
number_of_channels` bytes from `VirtualAlloc` (modelled by `alloc`,
`none` for a `NULL` return with `GetLastError() = osErr`).  Returns the
run's outcome together with the trace of allocation request sizes. -/
def bufferInit (bits_per_sample samples_per_buffer number_of_channels : Nat)
    (osName : String) (alloc : Nat → Option Nat) (osErr : Nat) :
    Except PyErr BufState × List Nat :=
  if ¬ bits_per_sample = 8 then (.error .bufferBitsError, [])
  else if ¬ osName = "nt" then (.error .bufferPlatformError, [])
  else
    let size_bytes := samples_per_buffer * number_of_channels
    match alloc size_bytes with
    | none => (.error (.memoryAllocError osErr), [size_bytes])
    | some addr => (.ok ⟨addr, size_bytes, true⟩, [size_bytes])

/-! Test fixtures: concrete instrument states on which the embedded
`acquire` is evaluated.  Parameter domains are registered outside this
module (the driver file never calls `add_parameter`), so the fixtures
supply representative `byte_to_value` tables; the device codes of the
purely numeric parameters equal their values. -/

/-- A `byte_to_value` table for the `mode` parameter containing the two
implemented modes and one extra registered-but-unimplemented value. -/
def modeB2v : List (Nat × String) := [(1, "NPT"), (2, "TS"), (3, "FOO")]

/-- A committed parameter holding byte `b`, with an empty code table. -/
def basicP (k : String) (b : Option Nat) (upd : Bool) : PState :=
  ⟨k, b, upd, [], []⟩

/-- Instrument state ready for an NPT run: every parameter committed,
`mode` holding the code of `"NPT"`, the three geometry parameters
holding the given bytes, `channel_selection` holding 3 (both channels)
and every flag parameter holding 0; `buflist` never assigned. -/
def nptState (sprB rpbB bpaB : Nat) : EngineState where
  params := fun k =>
    if k = "mode" then ⟨"mode", some 1, true, mkValueToByte modeB2v, modeB2v⟩
    else if k = "samples_per_record" then basicP k (some sprB) true
    else if k = "records_per_buffer" then basicP k (some rpbB) true
    else if k = "buffers_per_acquisition" then basicP k (some bpaB) true
    else if k = "channel_selection" then basicP k (some 3) true
    else basicP k (some 0) true
  buflist := none

/-- The NPT state with `buflist` assigned externally to two buffers, as
the only way the source's posting loop can be reached. -/
def nptBufState (sprB rpbB bpaB : Nat) : EngineState :=
  { nptState sprB rpbB bpaB with buflist := some [⟨100, 4096⟩, ⟨200, 4096⟩] }

/-- Instrument state ready for a TS run: `mode` committed to `"TS"`,
`samples_per_record` byte 1000, `buffers_per_acquisition` byte 3,
`records_per_buffer` byte 1. -/
def tsState : EngineState where
  params := fun k =>
    if k = "mode" then ⟨"mode", some 2, true, mkValueToByte modeB2v, modeB2v⟩
    else if k = "samples_per_record" then basicP k (some 1000) true
    else if k = "buffers_per_acquisition" then basicP k (some 3) true
    else if k = "records_per_buffer" then basicP k (some 1) true
    else basicP k (some 0) true
  buflist := none

/-- Instrument state with a freshly committed `mode` parameter and the
`modeB2v` table, used for mode-argument runs. -/
def modeArgState : EngineState where
  params := fun k =>
    if k = "mode" then ⟨"mode", some 1, true, mkValueToByte modeB2v, modeB2v⟩
    else basicP k (some 0) true
  buflist := none

/-- A dll whose every call returns the success sentinel and that reports
8 bits per sample. -/
def driverOk : DriverDll := ⟨fun _ => 512, 8, 1000000⟩

/-- The integer arguments recorded for a driver call. -/
def dcallArgs : DCall → List Nat
  | .abortAsyncRead => []
  | .getChannelInfo => []
  | .setRecordSize a b => [a, b]
  | .beforeAsyncRead a b c d e f => [a, b, c, d, e, f]
  | .postAsyncBuffer a b => [a, b]
  | .startCapture => []
  | .waitAsyncBufferComplete a b => [a, b]


/-- A representative configuration field for witnesses: a trigger-slope
parameter with a two-value domain. -/
def slopeParam : PState :=
  ⟨"trigger_slope1", some 1, true, [("POS", 1), ("NEG", 2)], [(1, "POS"), (2, "NEG")]⟩

/-- A `mode`-like parameter exactly as the constructor builds it from
the `modeB2v` table. -/
def modeParam : PState := ⟨"mode", some 1, true, mkValueToByte modeB2v, modeB2v⟩

/-- Decidable equality of `Except` results. -/
instance instDecEqExcept {ε α : Type} [DecidableEq ε] [DecidableEq α] :
    DecidableEq (Except ε α)
  | .ok a, .ok b =>
    if h : a = b then .isTrue (by rw [h]) else .isFalse (by intro hc; cases hc; exact h rfl)
  | .ok _, .error _ => .isFalse (by intro hc; cases hc)
  | .error _, .ok _ => .isFalse (by intro hc; cases hc)
  | .error e, .error f =>
    if h : e = f then .isTrue (by rw [h]) else .isFalse (by intro hc; cases hc; exact h rfl)

/-- C1: the capture loop of `acquire` cannot run.  On an NPT-ready state
with an all-success dll, `acquire` raises `AttributeError` at the
posting loop because `self.buflist` is never assigned (first and second
conjuncts); with `buflist` assigned externally, the buffers are posted
and capture started, and the run then raises `NameError` at the loop
header, whose condition `BuffersCompleted < BuffersPerAcquisition`
names two undefined variables — no completion counter exists, no
wait/repost cycle ever runs, and the final `AlazarAbortAsyncRead` of
line 284 is not issued on this failure path: the trace holds exactly
one abort call, the opening one (third to fifth conjuncts). -/
theorem acquire_capture_loop_defect :
    acquireRes driverOk {} (nptState 1024 4 10) = .error (.attributeError "buflist") ∧
    acquireTrace driverOk {} (nptState 1024 4 10) =
      [.abortAsyncRead, .getChannelInfo, .setRecordSize 0 1024,
       .beforeAsyncRead 3 0 1024 4 40 1] ∧
    acquireRes driverOk {} (nptBufState 1024 4 10) = .error (.nameError "BuffersCompleted") ∧
    acquireTrace driverOk {} (nptBufState 1024 4 10) =
      [.abortAsyncRead, .getChannelInfo, .setRecordSize 0 1024,
       .beforeAsyncRead 3 0 1024 4 40 1, .postAsyncBuffer 100 4096,
       .postAsyncBuffer 200 4096, .startCapture] ∧
    (acquireTrace driverOk {} (nptBufState 1024 4 10)).count .abortAsyncRead = 1 := by
  have h4 : acquireTrace driverOk {} (nptBufState 1024 4 10) =
      [.abortAsyncRead, .getChannelInfo, .setRecordSize 0 1024,
       .beforeAsyncRead 3 0 1024 4 40 1, .postAsyncBuffer 100 4096,
       .postAsyncBuffer 200 4096, .startCapture] := by
    simp [acquireTrace, acquire, setIfSome, pSet, pGet, pGetByte, pSetUpdated, getParamM,
      putParamM, getBuflistM, throwPy, asNat, dllCall, paramSet, paramGet, paramGetByte,
      setUpdatedP, alookup, mkValueToByte, resultHandler, succesCode, errorCodes, nptBufState,
      nptState, basicP, modeB2v, driverOk, bind, pure, Bind.bind, Pure.pure, Monad.toBind,
      instMonadAqM, List.forM]
  refine ⟨rfl, rfl, ?_, h4, ?_⟩
  · simp [acquireRes, acquire, setIfSome, pSet, pGet, pGetByte, pSetUpdated, getParamM,
      putParamM, getBuflistM, throwPy, asNat, dllCall, paramSet, paramGet, paramGetByte,
      setUpdatedP, alookup, mkValueToByte, resultHandler, succesCode, errorCodes, nptBufState,
      nptState, basicP, modeB2v, driverOk, bind, pure, Bind.bind, Pure.pure, Monad.toBind,
      instMonadAqM, List.forM]
  · rw [h4]; decide

/-- C2: an `acquire` call that passes a `mode` argument never fails with
the unsupported-mode exception of line 193.  `_set` leaves the `mode`
parameter stale, so the `mode.get()` of the validation line raises the
staleness exception first — for a registered but unimplemented mode
(`"FOO"`), and even for the valid `"NPT"`; an unregistered mode
(`"CS"`) already fails inside `_set` with its `KeyError`.  In each case
the failure does occur before any driver call (empty trace). -/
theorem acquire_mode_argument_failure :
    acquireRes driverOk { mode := some "FOO" } modeArgState = .error (.staleError "mode") ∧
    acquireTrace driverOk { mode := some "FOO" } modeArgState = [] ∧
    acquireRes driverOk { mode := some "CS" } modeArgState =
      .error (.valueKeyError "CS" "mode") ∧
    acquireTrace driverOk { mode := some "CS" } modeArgState = [] ∧
    acquireRes driverOk { mode := some "NPT" } modeArgState = .error (.staleError "mode") ∧
    ¬ acquireRes driverOk { mode := some "FOO" } modeArgState = .error .unsupportedMode :=
  ⟨rfl, rfl, rfl, rfl, rfl, by decide⟩

/-- C3 (counterexample): with `samplesPerRecord = 1024`,
`recordsPerBuffer = 4`, `buffersPerAcquisition = 10`, the
`AlazarBeforeAsyncRead` call receives `1024` and `4` as separate
arguments, and the claimed buffer size `1024 × 4 = 4096` appears in no
argument of any driver call of the run. -/
theorem npt_prepare_buffer_size_cex :
    acquireTrace driverOk {} (nptState 1024 4 10) =
      [.abortAsyncRead, .getChannelInfo, .setRecordSize 0 1024,
       .beforeAsyncRead 3 0 1024 4 40 1] ∧
    ((acquireTrace driverOk {} (nptState 1024 4 10)).all
      (fun c => !((dcallArgs c).contains 4096))) = true := by
  have h : acquireTrace driverOk {} (nptState 1024 4 10) =
      [.abortAsyncRead, .getChannelInfo, .setRecordSize 0 1024,
       .beforeAsyncRead 3 0 1024 4 40 1] := rfl
  exact ⟨h, by rw [h]; decide⟩

/-- C3 (amended): in NPT mode, for every geometry bytes
`sprB, rpbB, bpaB`, the run issues `AlazarSetRecordSize` with pretrigger
size 0 and post-trigger size `sprB`, and `AlazarBeforeAsyncRead` with
records-per-acquisition `rpbB * bpaB` — but with `sprB` and `rpbB` as
separate size arguments; the product `sprB * rpbB` (the local
`samples_per_buffer` of line 230) is not among its arguments. -/
theorem npt_geometry :
    ∀ sprB rpbB bpaB : Nat,
      acquireTrace driverOk {} (nptState sprB rpbB bpaB) =
        [.abortAsyncRead, .getChannelInfo, .setRecordSize 0 sprB,
         .beforeAsyncRead 3 0 sprB rpbB (rpbB * bpaB) 1] :=
  fun _ _ _ => rfl

/-- C4: in TS mode the geometry is never computed.  Line 240 applies `%`
to `samples_per_record._get_byte()` and the `buffers_per_acquisition`
parameter object itself (the `._get_byte()` call is missing), raising
`TypeError`; with `samplesPerRecord = 1000` and
`buffersPerAcquisition = 3` the run dies there, before any
`samples_per_buffer` computation, rounding warning,
`records_per_buffer` override or TS `AlazarBeforeAsyncRead` call. -/
theorem ts_branch_type_error :
    acquireRes driverOk {} tsState =
      .error (.typeError "unsupported operand types for mod: int and AlazarParameter") ∧
    acquireTrace driverOk {} tsState = [.abortAsyncRead, .getChannelInfo] :=
  ⟨rfl, rfl⟩

/-- C5: classification of every status code by `_result_handler`: the
success sentinel (and only it) returns without raising; any other code
present in the `error_codes` table raises the exception built from the
invoking operation's name, the code and the mapped message; any other
code absent from the table raises the distinct unknown-code `KeyError`
naming the operation and the raw code — never a silent success. -/
theorem result_handler_taxonomy (code : Nat) (src : String) :
    (resultHandler code src = .ok () ↔ code = succesCode) ∧
    (∀ msg, alookup code errorCodes = some msg → ¬ code = succesCode →
      resultHandler code src = .error (.deviceCallError src code msg)) ∧
    (alookup code errorCodes = none → ¬ code = succesCode →
      resultHandler code src = .error (.unknownDeviceError src code)) := by
  refine ⟨?_, ?_, ?_⟩
  · unfold resultHandler
    by_cases h : code = succesCode
    · simp [h]
    · simp only [h, if_false]
      cases halo : alookup code errorCodes <;> simp [h]
  · intro msg hm hne
    unfold resultHandler
    simp [hne, hm]
  · intro hm hne
    unfold resultHandler
    simp [hne, hm]

/-- Witness for C5 at three concrete codes: the sentinel 512 succeeds;
579 (a table entry) raises the device-call exception with its mapped
message; 600 (absent from the table) raises the unknown-code error. -/
theorem result_handler_taxonomy_witness :
    resultHandler 512 "AlazarStartCapture" = .ok () ∧
    resultHandler 579 "AlazarWaitAsyncBufferComplete" = .error (.deviceCallError
      "AlazarWaitAsyncBufferComplete" 579
      "ApiWaitTimeout: operation did not finish during timeout interval. Check your trigger.") ∧
    resultHandler 600 "AlazarStartCapture" = .error (.unknownDeviceError "AlazarStartCapture" 600) :=
  ⟨(result_handler_taxonomy 512 "AlazarStartCapture").1.mpr rfl,
   (result_handler_taxonomy 579 "AlazarWaitAsyncBufferComplete").2.1 _ rfl (by decide),
   (result_handler_taxonomy 600 "AlazarStartCapture").2.2 rfl (by decide)⟩

/-- C7: `_set` with a value outside the field's `_value_to_byte_dict`
raises the `KeyError` naming the rejected value and the field, and the
in-place effect leaves the parameter — its stored code and staleness
flag — unchanged.  `paramSet` is a pure function of the parameter alone:
no device call occurs. -/
theorem param_set_rejects_out_of_domain (p : PState) (v : String)
    (h : alookup v p.v2b = none) :
    paramSet v p = .error (.valueKeyError v p.name) ∧ paramSetRun v p = p := by
  have h1 : paramSet v p = .error (.valueKeyError v p.name) := by
    unfold paramSet; rw [h]
  exact ⟨h1, by unfold paramSetRun; rw [h1]⟩

/-- Witness for C7: setting `"BAD"` on the trigger-slope field fails
with the `KeyError` naming both, and leaves the field untouched. -/
theorem param_set_rejects_out_of_domain_witness :
    paramSet "BAD" slopeParam = .error (.valueKeyError "BAD" "trigger_slope1") ∧
    paramSetRun "BAD" slopeParam = slopeParam :=
  param_set_rejects_out_of_domain slopeParam "BAD" rfl

/-- C10: after a successful `_set` and before `_set_updated`, the public
`get` accessor always raises the staleness exception, so a pending value
is never observable through it, while `_get_byte` returns the freshly
stored device code with no staleness or ever-set check (it is a total
function of the parameter). -/
theorem stale_value_unobservable (p : PState) (v : String) (b : Nat)
    (h : alookup v p.v2b = some b) :
    ∃ q, paramSet v p = .ok q ∧ paramGet q = .error (.staleError p.name) ∧
      paramGetByte q = some b := by
  refine ⟨{ p with byte := some b, uptodate := false }, ?_, ?_, rfl⟩
  · unfold paramSet; rw [h]
  · unfold paramGet; simp

/-- Witness for C10: setting `"NEG"` on the trigger-slope field stores
code 2, `get` then raises the staleness exception while `_get_byte`
already reports 2. -/
theorem stale_value_unobservable_witness :
    ∃ q, paramSet "NEG" slopeParam = .ok q ∧
      paramGet q = .error (.staleError "trigger_slope1") ∧ paramGetByte q = some 2 :=
  stale_value_unobservable slopeParam "NEG" 2 rfl

/-- First-match lookup finds the unique binding when keys are nodup. -/
lemma alookup_of_mem {α β : Type} [DecidableEq α] (k : α) (b : β) :
    ∀ l : List (α × β), (l.map Prod.fst).Nodup → (k, b) ∈ l → alookup k l = some b := by
  intro l
  induction l with
  | nil => intro _ hm; cases hm
  | cons hd tl ih =>
    intro hnd hm
    obtain ⟨a, c⟩ := hd
    rw [List.map_cons] at hnd
    obtain ⟨hhead, htail⟩ := List.nodup_cons.mp hnd
    rw [alookup]
    by_cases hak : a = k
    · subst hak
      have hbc : b = c := by
        rcases List.mem_cons.mp hm with heq | htl
        · cases heq; rfl
        · exact absurd (List.mem_map.mpr ⟨(a, b), htl, rfl⟩) hhead
      simp [hbc]
    · have htl : (k, b) ∈ tl := by
        rcases List.mem_cons.mp hm with heq | htl
        · exact absurd (congrArg Prod.fst heq).symm hak
        · exact htl
      rw [if_neg hak]
      exact ih htail htl

/-- Looking a value up in the derived `_value_to_byte_dict` recovers the
code it is paired with in `_byte_to_value_dict`, provided the values of
that table are pairwise distinct (the mapping is bidirectional). -/
lemma alookup_mkValueToByte (l : List (Nat × String)) (b : Nat) (v : String)
    (hnd : (l.map Prod.snd).Nodup) (hm : (b, v) ∈ l) :
    alookup v (mkValueToByte l) = some b := by
  apply alookup_of_mem
  · unfold mkValueToByte
    rw [List.map_reverse, List.nodup_reverse]
    simpa [List.map_map, Function.comp] using hnd
  · unfold mkValueToByte
    rw [List.mem_reverse]
    exact List.mem_map.mpr ⟨(b, v), hm, rfl⟩

/-- C8: for a field whose `_value_to_byte_dict` is derived from its
`_byte_to_value_dict` (as the constructor does) and whose table is
bidirectional (values pairwise distinct), `_set` with any in-domain
value `v` succeeds, and after `_set_updated` the field is non-stale and
`_get_byte` returns exactly the code paired with `v` in the table. -/
theorem param_roundtrip (p : PState) (b : Nat) (v : String)
    (hder : p.v2b = mkValueToByte p.b2v)
    (hnd : (p.b2v.map Prod.snd).Nodup)
    (hm : (b, v) ∈ p.b2v) :
    ∃ q, paramSet v p = .ok q ∧ (setUpdatedP q).uptodate = true ∧
      paramGetByte (setUpdatedP q) = some b := by
  have hl : alookup v p.v2b = some b := by
    rw [hder]; exact alookup_mkValueToByte _ _ _ hnd hm
  refine ⟨{ p with byte := some b, uptodate := false }, ?_, rfl, rfl⟩
  unfold paramSet; rw [hl]

/-- Witness for C8: on the mode field, `_set "TS"` then `_set_updated`
leaves the field non-stale with `_get_byte` returning code 2, the code
`modeB2v` assigns to `"TS"`. -/
theorem param_roundtrip_witness :
    ∃ q, paramSet "TS" modeParam = .ok q ∧ (setUpdatedP q).uptodate = true ∧
      paramGetByte (setUpdatedP q) = some 2 :=
  param_roundtrip modeParam 2 "TS" rfl (by decide) (by decide)

/-- Committing twice is the same as committing once. -/
lemma setUpdatedP_idem (p : PState) : setUpdatedP (setUpdatedP p) = setUpdatedP p := rfl

/-- A non-sentinel code makes `_result_handler` raise (some exception). -/
lemma resultHandler_error_of_ne {c : Nat} (s : String) (h : ¬ c = succesCode) :
    ∃ e, resultHandler c s = .error e := by
  unfold resultHandler
  rw [if_neg h]
  cases alookup c errorCodes <;> exact ⟨_, rfl⟩

/-- The parameter map a call sequence leaves behind: a field is
committed exactly when it belongs to a step of the longest all-success
prefix, and is untouched otherwise. -/
lemma runCalls_params (oracle : Nat → Nat) :
    ∀ (steps : List (String × List String)) (i : Nat) (P : String → PState) (k : String),
      (runCalls oracle steps i P).2.1 k =
        if k ∈ committedFields oracle steps i then setUpdatedP (P k) else P k := by
  intro steps
  induction steps with
  | nil => intro i P k; simp [runCalls, committedFields]
  | cons hd tl ih =>
    intro i P k
    obtain ⟨src, fs⟩ := hd
    by_cases h : oracle i = succesCode
    · have hres : resultHandler (oracle i) src = .ok () := by rw [h]; rfl
      simp only [runCalls, hres, committedFields, if_pos h]
      rw [ih]
      by_cases hf : k ∈ fs <;> by_cases hr : k ∈ committedFields oracle tl (i + 1) <;>
        simp [commitFields, hf, hr, List.mem_append, setUpdatedP_idem]
    · obtain ⟨e, hres⟩ := resultHandler_error_of_ne src h
      simp only [runCalls, hres, committedFields, if_neg h]
      simp

/-- A call sequence finishes without an exception exactly when every
step's return code is the success sentinel. -/
lemma runCalls_err_none (oracle : Nat → Nat) :
    ∀ (steps : List (String × List String)) (i : Nat) (P : String → PState),
      (runCalls oracle steps i P).1 = none ↔
        ∀ j, j < steps.length → oracle (i + j) = succesCode := by
  intro steps
  induction steps with
  | nil => intro i P; simp [runCalls]
  | cons hd tl ih =>
    intro i P
    obtain ⟨src, fs⟩ := hd
    by_cases h : oracle i = succesCode
    · have hres : resultHandler (oracle i) src = .ok () := by rw [h]; rfl
      simp only [runCalls, hres]
      rw [ih]
      constructor
      · intro hall j hj
        cases j with
        | zero => simpa using h
        | succ n =>
          have hn : n < tl.length := by simpa [Nat.succ_lt_succ_iff] using hj
          have := hall n hn
          have heq : i + 1 + n = i + (n + 1) := by omega
          rw [heq] at this
          exact this
      · intro hall j hj
        have := hall (j + 1) (by simpa [Nat.succ_lt_succ_iff] using hj)
        have heq : i + (j + 1) = i + 1 + j := by omega
        rw [heq] at this
        exact this
    · obtain ⟨e, hres⟩ := resultHandler_error_of_ne src h
      simp only [runCalls, hres]
      constructor
      · intro habs; exact absurd habs (by simp)
      · intro hall
        exact absurd (by simpa using hall 0 (Nat.succ_pos _)) h

/-- C6: commit discipline of the `config` device-call sequence.  For
every return-code oracle and initial parameter map, the final map
commits (`_set_updated`s) exactly the fields consumed by the calls of
the longest all-success prefix — a field is never committed unless the
call that consumed its code returned the success sentinel, fields of
failed or unreached calls keep their prior code and staleness, and
committed fields stay committed when a later call fails; and the run
raises no exception exactly when all nine device calls return the
sentinel. -/
theorem config_commit_discipline (oracle : Nat → Nat) (P : String → PState) (k : String) :
    ((configCalls oracle P).2.1 k =
      if k ∈ committedFields oracle configSteps 0 then setUpdatedP (P k) else P k) ∧
    ((configCalls oracle P).1 = none ↔ ∀ j, j < 9 → oracle j = succesCode) := by
  constructor
  · exact runCalls_params oracle configSteps 0 P k
  · have h := runCalls_err_none oracle configSteps 0 P
    simpa [configCalls] using h

/-- C9: `Buffer.__init__` geometry and preconditions.  When the sample
width is not 8 bits or the platform is not Windows, construction fails
with the corresponding format exception and no allocation is attempted
(empty allocation trace); otherwise exactly one allocation of
`samples_per_buffer * number_of_channels` bytes is requested, and a
successfully constructed buffer records that byte size. -/
theorem buffer_size_and_preconditions (bits spb noc : Nat) (os : String)
    (alloc : Nat → Option Nat) (osErr : Nat) :
    ((¬ bits = 8 ∨ ¬ os = "nt") →
      ((bufferInit bits spb noc os alloc osErr).1 = .error .bufferBitsError ∨
       (bufferInit bits spb noc os alloc osErr).1 = .error .bufferPlatformError) ∧
      (bufferInit bits spb noc os alloc osErr).2 = []) ∧
    (bits = 8 → os = "nt" →
      (bufferInit bits spb noc os alloc osErr).2 = [spb * noc] ∧
      ∀ st, (bufferInit bits spb noc os alloc osErr).1 = .ok st →
        st.size_bytes = spb * noc) := by
  constructor
  · intro h
    unfold bufferInit
    by_cases hb : bits = 8
    · have hos : ¬ os = "nt" := by
        rcases h with h | h
        · exact absurd hb h
        · exact h
      simp [hb, hos]
    · simp [hb]
  · intro hb hos
    subst hb
    subst hos
    unfold bufferInit
    cases halo : alloc (spb * noc) <;> simp [halo]

/-- Witness for C9: a 16-bit request fails with the format error and an
empty allocation trace; an 8-bit request on Windows for 1000 samples on
2 channels allocates exactly 2000 bytes. -/
theorem buffer_size_and_preconditions_witness :
    ((bufferInit 16 1000 2 "nt" (fun _ => some 42) 0).1 = .error .bufferBitsError ∨
     (bufferInit 16 1000 2 "nt" (fun _ => some 42) 0).1 = .error .bufferPlatformError) ∧
    (bufferInit 16 1000 2 "nt" (fun _ => some 42) 0).2 = [] ∧
    (bufferInit 8 1000 2 "nt" (fun _ => some 42) 0).2 = [2000] :=
  ⟨((buffer_size_and_preconditions 16 1000 2 "nt" (fun _ => some 42) 0).1
      (Or.inl (by decide))).1,
   ((buffer_size_and_preconditions 16 1000 2 "nt" (fun _ => some 42) 0).1
      (Or.inl (by decide))).2,
   ((buffer_size_and_preconditions 8 1000 2 "nt" (fun _ => some 42) 0).2 rfl rfl).1⟩

/-- Witness for C6: with every call succeeding, `sample_rate` (consumed
by the first call) ends committed and the run raises nothing; with the
first call failing, no field is committed and the run raises. -/
theorem config_commit_discipline_witness :
    (configCalls (fun _ => succesCode) (fun k => basicP k (some 0) false)).2.1 "sample_rate" =
      setUpdatedP (basicP "sample_rate" (some 0) false) ∧
    (configCalls (fun _ => succesCode) (fun k => basicP k (some 0) false)).1 = none ∧
    (configCalls (fun _ => 513) (fun k => basicP k (some 0) false)).2.1 "sample_rate" =
      basicP "sample_rate" (some 0) false ∧
    ¬ (configCalls (fun _ => 513) (fun k => basicP k (some 0) false)).1 = none := by
  refine ⟨?_, ?_, ?_, ?_⟩
  · have h := (config_commit_discipline (fun _ => succesCode)
      (fun k => basicP k (some 0) false) "sample_rate").1
    rw [h, if_pos (by decide)]
  · exact (config_commit_discipline (fun _ => succesCode)
      (fun k => basicP k (some 0) false) "sample_rate").2.mpr (fun j hj => rfl)
  · have h := (config_commit_discipline (fun _ => 513)
      (fun k => basicP k (some 0) false) "sample_rate").1
    rw [h, if_neg (by decide)]
  · intro habs
    have h := (config_commit_discipline (fun _ => 513)
      (fun k => basicP k (some 0) false) "sample_rate").2.mp habs 0 (by omega)
    exact absurd h (by decide)
